import Mathlib

/-!
Verification of the sigma-bot attendance/ledger core (src/bot.py).

The bot keeps one sqlite table `users(user_id PRIMARY KEY, balance DEFAULT 0,
total_checkins DEFAULT 0, last_checkin TEXT, joined_at TEXT)` and three
handlers: the daily check-in command, the profile command, and the
member-join event handler, plus a fatal startup check on the bot token.
We embed the table as a function from user ids to optional rows and each
handler as a pure state-passing function, then prove the specified
properties.
-/

/-- `DAILY_REWARD = 100_000` (bot.py line 30). -/
def DAILY_REWARD : Nat := 100000

/-- One row of the `users` table (bot.py `init_db`, lines 39-51).
`last_checkin` and `joined_at` are nullable TEXT columns, hence
`Option String`; `balance` and `total_checkins` are non-negative
integer columns. -/
structure UserRow where
  balance : Nat
  total_checkins : Nat
  last_checkin : Option String
  joined_at : Option String
deriving Repr, DecidableEq

/-- The column defaults of `CREATE TABLE users` (bot.py lines 43-49):
balance 0, total_checkins 0, both dates NULL. -/
def defaultRow : UserRow :=
  { balance := 0, total_checkins := 0, last_checkin := none, joined_at := none }

/-- The `users` table: `user_id` is the primary key, so it maps each id to
at most one row. -/
def DB : Type := Nat → Option UserRow

/-- The freshly created database: no rows. -/
def emptyDB : DB := fun _ => none

/-- Read a user's row, with the table defaults standing in for an absent
row (every handler reads a row only after `ensure_user` has inserted it,
at which point the stored row for a fresh user is exactly `defaultRow`). -/
def rowOf (d : DB) (uid : Nat) : UserRow := (d uid).getD defaultRow

/-- `ensure_user` (bot.py lines 60-61):
`INSERT OR IGNORE INTO users(user_id) VALUES (?)` — if the row exists the
insert is ignored, otherwise a row with the column defaults is inserted. -/
def ensure_user (d : DB) (uid : Nat) : DB :=
  if (d uid).isSome then d
  else fun id => if id = uid then some defaultRow else d id

/-- `get_user` (bot.py lines 63-65): ensure the row exists, then
`SELECT * FROM users WHERE user_id=?`.  Returns the updated table together
with the fetched row. -/
def get_user (d : DB) (uid : Nat) : DB × UserRow :=
  let d1 := ensure_user d uid
  (d1, rowOf d1 uid)

/-- `UPDATE users SET ... WHERE user_id=?`: applies the field update `f`
to the matching row (no-op if the row is absent), leaving every other row
untouched. -/
def updateRow (d : DB) (uid : Nat) (f : UserRow → UserRow) : DB :=
  fun id => if id = uid then (d id).map f else d id

/-- Python truthiness of a nullable TEXT value: `None` and `""` are falsy,
every other string is truthy (used by `if not user["joined_at"]` and the
`x or y` display fallbacks in bot.py). -/
def truthyStr : Option String → Bool
  | none => false
  | some s => !s.isEmpty

/-- Python `x or y` for a nullable string `x` and fallback string `y`. -/
def pyOr (x : Option String) (y : String) : String :=
  if truthyStr x then x.getD y else y

/-- The result of the check-in command, as surfaced to the user
(bot.py lines 142-167): either the same-day rejection embed carrying the
current balance, or the grant embed carrying the new balance and total. -/
inductive CheckinResult where
  | alreadyCheckedIn (balance : Nat) : CheckinResult
  | granted (new_balance new_total : Nat) : CheckinResult
deriving Repr, DecidableEq

/-- The check-in command handler (bot.py lines 136-167).  `today` is the
current calendar date string (`date.today().isoformat()` at line 137,
passed in here so the ambient clock is explicit).  Fetches the row via
`get_user`; if `last_checkin == today` it replies without writing,
otherwise it writes balance, total_checkins and last_checkin in a single
UPDATE and replies with the new values. -/
def checkin (d : DB) (uid : Nat) (today : String) : DB × CheckinResult :=
  let du := get_user d uid
  let u := du.2
  if u.last_checkin = some today then
    (du.1, CheckinResult.alreadyCheckedIn u.balance)
  else
    let new_balance := u.balance + DAILY_REWARD
    let new_total := u.total_checkins + 1
    (updateRow du.1 uid (fun r =>
      { r with balance := new_balance, total_checkins := new_total,
               last_checkin := some today }),
     CheckinResult.granted new_balance new_total)

/-- The profile reply embed fields (bot.py lines 182-185): balance, total
check-ins, last check-in (`or "없음"`), join date (`or "기록 없음"`). -/
structure ProfileReply where
  balance : Nat
  total_checkins : Nat
  last_checkin_display : String
  joined_display : String
deriving Repr, DecidableEq

/-- The profile command handler (bot.py lines 173-190): fetch via
`get_user` (creating the row if absent) and render the row; no write. -/
def profile (d : DB) (uid : Nat) : DB × ProfileReply :=
  let du := get_user d uid
  (du.1,
   { balance := du.2.balance, total_checkins := du.2.total_checkins,
     last_checkin_display := pyOr du.2.last_checkin "없음",
     joined_display := pyOr du.2.joined_at "기록 없음" })

/-- A calendar date as carried by `member.joined_at` (a datetime; only the
date components survive `strftime("%Y-%m-%d")`). -/
structure PyDate where
  year : Nat
  month : Nat
  day : Nat
deriving Repr, DecidableEq

/-- Zero-pad to two digits (`%m`, `%d`). -/
def pad2 (n : Nat) : String := if n < 10 then "0" ++ toString n else toString n

/-- Zero-pad to four digits (`%Y`). -/
def pad4 (n : Nat) : String :=
  if n < 10 then "000" ++ toString n
  else if n < 100 then "00" ++ toString n
  else if n < 1000 then "0" ++ toString n
  else toString n

/-- `dt.strftime("%Y-%m-%d")` (bot.py line 94). -/
def strftime_Ymd (dt : PyDate) : String :=
  pad4 dt.year ++ "-" ++ pad2 dt.month ++ "-" ++ pad2 dt.day

/-- bot.py line 94: `member.joined_at.strftime("%Y-%m-%d") if member.joined_at
else "알 수 없음"`. -/
def joined_str (memberJoinedAt : Option PyDate) : String :=
  match memberJoinedAt with
  | some dt => strftime_Ymd dt
  | none => "알 수 없음"

/-- The welcome embed fields produced for a join event (bot.py lines
125-128): user id, displayed join date, balance, total check-ins. -/
structure JoinReply where
  user_id : Nat
  joined_display : String
  balance : Nat
  total_checkins : Nat
deriving Repr, DecidableEq

/-- The member-join event handler (bot.py lines 90-130).  Bots are ignored
before any database access (lines 91-92).  Otherwise: fetch via
`get_user`; if `joined_at` is falsy (`if not user["joined_at"]`, line 100)
write it as `joined_str` and re-fetch; then produce the welcome payload
(whether it is actually sent depends on the external channel lookup,
which is outside the data model). -/
def on_member_join (d : DB) (memberId : Nat) (memberBot : Bool)
    (memberJoinedAt : Option PyDate) : DB × Option JoinReply :=
  if memberBot then (d, none)
  else
    let js := joined_str memberJoinedAt
    let du := get_user d memberId
    let step :=
      if truthyStr du.2.joined_at then du
      else
        let d2 := updateRow du.1 memberId (fun r => { r with joined_at := some js })
        get_user d2 memberId
    (step.1,
     some { user_id := memberId, joined_display := pyOr step.2.joined_at js,
            balance := step.2.balance, total_checkins := step.2.total_checkins })

/-- The outcome of process startup (bot.py lines 197-201): either the
fatal `RuntimeError` for a missing token, or connecting with the token
(`client.run(TOKEN)`). -/
inductive StartupOutcome where
  | fatal (msg : String) : StartupOutcome
  | run (token : String) : StartupOutcome
deriving Repr, DecidableEq

/-- Startup (bot.py lines 197-201): `TOKEN = os.getenv("DISCORD_TOKEN")`
yields `none` when the variable is absent; `if not TOKEN: raise
RuntimeError(...)` fires on `none` and on the empty string, and only
otherwise does `client.run(TOKEN)` execute. -/
def startup : Option String → StartupOutcome
  | none => StartupOutcome.fatal "DISCORD_TOKEN이 .env에 없습니다."
  | some t =>
    if t.isEmpty then StartupOutcome.fatal "DISCORD_TOKEN이 .env에 없습니다."
    else StartupOutcome.run t

/-- One inbound event processed by the core: a check-in command, a profile
command, or a member-join event. -/
inductive Op where
  | checkinOp (uid : Nat) (today : String) : Op
  | profileOp (uid : Nat) : Op
  | memberJoinOp (uid : Nat) (isBot : Bool) (mj : Option PyDate) : Op
deriving Repr, DecidableEq

/-- The state change performed by one event. -/
def applyOp (d : DB) : Op → DB
  | Op.checkinOp uid today => (checkin d uid today).1
  | Op.profileOp uid => (profile d uid).1
  | Op.memberJoinOp uid b mj => (on_member_join d uid b mj).1

/-- The database after a sequence of events starting from `emptyDB`. -/
def runOps (ops : List Op) : DB := ops.foldl applyOp emptyDB

/-- Every stored row has `joined_at` different from the empty string (it
is only ever written as `joined_str`, which is a padded date or a literal
fallback text) and a balance that is exactly
`total_checkins * DAILY_REWARD`. -/
def DBInv (d : DB) : Prop :=
  ∀ id r, d id = some r →
    r.joined_at ≠ some "" ∧ r.balance = r.total_checkins * DAILY_REWARD

/-- A sample row for a user who checked in on 2024-01-01 with some
history. -/
def rowW : UserRow :=
  { balance := 500000, total_checkins := 5,
    last_checkin := some "2024-01-01", joined_at := some "2023-12-25" }

/-- A sample one-row database holding `rowW` under user id 42. -/
def dbW : DB := fun id => if id = 42 then some rowW else none

-- ### Basic lemmas about the store operations

theorem ensure_user_of_some {d : DB} {uid : Nat} {u : UserRow}
    (h : d uid = some u) : ensure_user d uid = d := by
  unfold ensure_user
  rw [h]
  rfl

theorem ensure_user_apply_self (d : DB) (uid : Nat) :
    ensure_user d uid uid = some (rowOf d uid) := by
  unfold ensure_user rowOf
  cases h : d uid with
  | some u => simp [h]
  | none => simp [h]

theorem ensure_user_apply_ne (d : DB) {uid id : Nat} (h : id ≠ uid) :
    ensure_user d uid id = d id := by
  unfold ensure_user
  cases hs : (d uid).isSome <;> simp [h]

theorem rowOf_ensure_user (d : DB) (uid id : Nat) :
    rowOf (ensure_user d uid) id = rowOf d id := by
  by_cases h : id = uid
  · subst h
    unfold rowOf
    rw [ensure_user_apply_self]
    rfl
  · unfold rowOf
    rw [ensure_user_apply_ne d h]

theorem updateRow_apply_self (d : DB) (uid : Nat) (f : UserRow → UserRow) :
    updateRow d uid f uid = (d uid).map f := by
  unfold updateRow
  simp

theorem updateRow_apply_ne (d : DB) (uid : Nat) (f : UserRow → UserRow)
    {id : Nat} (h : id ≠ uid) : updateRow d uid f id = d id := by
  unfold updateRow
  simp [h]

theorem get_user_fst (d : DB) (uid : Nat) :
    (get_user d uid).1 = ensure_user d uid := rfl

theorem get_user_snd (d : DB) (uid : Nat) :
    (get_user d uid).2 = rowOf d uid := by
  show rowOf (ensure_user d uid) uid = rowOf d uid
  exact rowOf_ensure_user d uid uid

-- ### C1

/-- C1: if the record's `last_checkin` equals `today`, the check-in
command rejects: the database is returned completely unchanged (every
field of every row), and the reply is `ALREADY_CHECKED_IN` carrying the
record's unchanged balance. -/
theorem checkin_same_day_rejects (d : DB) (uid : Nat) (u : UserRow)
    (today : String) (hu : d uid = some u) (h : u.last_checkin = some today) :
    checkin d uid today = (d, CheckinResult.alreadyCheckedIn u.balance) := by
  have hr : rowOf d uid = u := by unfold rowOf; rw [hu]; rfl
  simp only [checkin, get_user_fst, get_user_snd, ensure_user_of_some hu, hr, h,
    if_true]

theorem checkin_same_day_rejects_witness :
    checkin dbW 42 "2024-01-01" = (dbW, CheckinResult.alreadyCheckedIn 500000) :=
  checkin_same_day_rejects dbW 42 rowW "2024-01-01" rfl rfl

-- ### C2

/-- C2: whenever the record's `last_checkin` differs from `today`
(including a fresh record with `last_checkin` null and a record checked in
on an earlier date), the check-in command replies `GRANTED` with the new
balance and total, and in a single update persists exactly
`balance + DAILY_REWARD` (with `DAILY_REWARD = 100000`),
`total_checkins + 1` and `last_checkin = today`, leaving `joined_at` and
every other user's row untouched. -/
theorem checkin_grants (d : DB) (uid : Nat) (today : String) (u : UserRow)
    (hu : rowOf d uid = u) (h : u.last_checkin ≠ some today) :
    DAILY_REWARD = 100000 ∧
    (checkin d uid today).2
      = CheckinResult.granted (u.balance + DAILY_REWARD) (u.total_checkins + 1) ∧
    (checkin d uid today).1 uid
      = some { u with balance := u.balance + DAILY_REWARD,
                      total_checkins := u.total_checkins + 1,
                      last_checkin := some today } ∧
    ∀ id, id ≠ uid → (checkin d uid today).1 id = d id := by
  simp only [checkin, get_user_fst, get_user_snd, hu, if_neg h]
  refine ⟨rfl, trivial, ?_, ?_⟩
  · rw [updateRow_apply_self, ensure_user_apply_self, hu]
    rfl
  · intro id hid
    rw [updateRow_apply_ne _ _ _ hid, ensure_user_apply_ne d hid]

theorem checkin_grants_witness :
    DAILY_REWARD = 100000 ∧
    (checkin emptyDB 42 "2024-01-01").2 = CheckinResult.granted 100000 1 ∧
    (checkin emptyDB 42 "2024-01-01").1 42
      = some { balance := 100000, total_checkins := 1,
               last_checkin := some "2024-01-01", joined_at := none } ∧
    (checkin emptyDB 42 "2024-01-01").1 7 = none := by
  have h := checkin_grants emptyDB 42 "2024-01-01" defaultRow rfl (by decide)
  exact ⟨h.1, h.2.1, h.2.2.1, h.2.2.2 7 (by decide)⟩

-- ### C3

/-- C3: the first get-or-create access for a never-seen user id yields a
record with balance 0, total_checkins 0, last_checkin null and joined_at
null (the table defaults). -/
theorem get_user_fresh (d : DB) (uid : Nat) (h : d uid = none) :
    (get_user d uid).2
      = { balance := 0, total_checkins := 0,
          last_checkin := none, joined_at := none } := by
  rw [get_user_snd]
  unfold rowOf
  rw [h]
  rfl

theorem get_user_fresh_witness :
    (get_user emptyDB 42).2
      = { balance := 0, total_checkins := 0,
          last_checkin := none, joined_at := none } :=
  get_user_fresh emptyDB 42 rfl

-- ### C4

/-- C4: get-or-create is idempotent: after any state, calling `get_user`
again returns the same record and leaves the database exactly as the
first call left it — no duplicate row (user_id keys at most one row by
construction) and no field reset. -/
theorem get_user_idempotent (d : DB) (uid : Nat) :
    get_user (get_user d uid).1 uid = get_user d uid := by
  have h1 : (get_user d uid).1 uid = some (rowOf d uid) := by
    rw [get_user_fst]
    exact ensure_user_apply_self d uid
  rw [get_user_fst] at h1
  show get_user (ensure_user d uid) uid = get_user d uid
  simp only [get_user]
  rw [ensure_user_of_some h1]

-- ### C8

/-- C8: a join event for a bot member is ignored: the database is
returned untouched (no record created or modified) and no welcome payload
is produced. -/
theorem on_member_join_ignores_bots (d : DB) (uid : Nat)
    (mj : Option PyDate) : on_member_join d uid true mj = (d, none) := rfl

-- ### C9

/-- C9: when `DISCORD_TOKEN` is absent from the environment, startup is a
fatal error: the `RuntimeError` is raised and `client.run` is never
reached, so the process never connects. -/
theorem startup_missing_token_fatal :
    startup none = StartupOutcome.fatal "DISCORD_TOKEN이 .env에 없습니다." := rfl

-- ### String facts about the stored join dates

theorem strftime_Ymd_ne_empty (dt : PyDate) : strftime_Ymd dt ≠ "" := by
  intro hcon
  have hl : (strftime_Ymd dt).length = 0 := by rw [hcon]; rfl
  unfold strftime_Ymd at hl
  simp only [String.length_append] at hl
  have h1 : ("-" : String).length = 1 := rfl
  simp only [h1] at hl
  omega

theorem joined_str_ne_empty (mj : Option PyDate) : joined_str mj ≠ "" := by
  cases mj with
  | some dt => exact strftime_Ymd_ne_empty dt
  | none => decide

theorem truthyStr_some_of_ne {s : String} (h : s ≠ "") :
    truthyStr (some s) = true := by
  have he : s.isEmpty = false := by
    cases he : s.isEmpty
    · rfl
    · exact absurd ((String.isEmpty_iff s).mp he) h
  simp [truthyStr, he]

-- ### Characterizations of each handler's state change

theorem checkin_fst_rejected (d : DB) (uid : Nat) (today : String)
    (h : (rowOf d uid).last_checkin = some today) :
    (checkin d uid today).1 = ensure_user d uid := by
  simp [checkin, get_user_fst, get_user_snd, h]

theorem checkin_fst_granted (d : DB) (uid : Nat) (today : String)
    (h : ¬(rowOf d uid).last_checkin = some today) :
    (checkin d uid today).1 =
      updateRow (ensure_user d uid) uid (fun r =>
        { r with balance := (rowOf d uid).balance + DAILY_REWARD,
                 total_checkins := (rowOf d uid).total_checkins + 1,
                 last_checkin := some today }) := by
  simp [checkin, get_user_fst, get_user_snd, h]

theorem profile_fst (d : DB) (uid : Nat) :
    (profile d uid).1 = ensure_user d uid := rfl

theorem on_member_join_fst_truthy (d : DB) (uid : Nat) (mj : Option PyDate)
    (h : truthyStr (rowOf d uid).joined_at = true) :
    (on_member_join d uid false mj).1 = ensure_user d uid := by
  simp [on_member_join, get_user_fst, get_user_snd, h]

theorem on_member_join_fst_set (d : DB) (uid : Nat) (mj : Option PyDate)
    (h : truthyStr (rowOf d uid).joined_at = false) :
    (on_member_join d uid false mj).1 =
      updateRow (ensure_user d uid) uid
        (fun r => { r with joined_at := some (joined_str mj) }) := by
  have hsome : updateRow (ensure_user d uid) uid
      (fun r => { r with joined_at := some (joined_str mj) }) uid
      = some { rowOf d uid with joined_at := some (joined_str mj) } := by
    rw [updateRow_apply_self, ensure_user_apply_self]
    rfl
  simp [on_member_join, get_user_fst, get_user_snd, h, ensure_user_of_some hsome]

-- ### Row-level corollaries

theorem rowOf_updateRow_ensure_self (d : DB) (uid : Nat)
    (f : UserRow → UserRow) :
    rowOf (updateRow (ensure_user d uid) uid f) uid = f (rowOf d uid) := by
  unfold rowOf
  rw [updateRow_apply_self, ensure_user_apply_self]
  rfl

theorem rowOf_updateRow_ne (d : DB) (uid : Nat) (f : UserRow → UserRow)
    {id : Nat} (h : id ≠ uid) :
    rowOf (updateRow d uid f) id = rowOf d id := by
  unfold rowOf
  rw [updateRow_apply_ne d uid f h]

theorem checkin_rowOf_ne (d : DB) (uid : Nat) (today : String) {id : Nat}
    (h : id ≠ uid) : rowOf (checkin d uid today).1 id = rowOf d id := by
  by_cases hc : (rowOf d uid).last_checkin = some today
  · rw [checkin_fst_rejected d uid today hc, rowOf_ensure_user]
  · rw [checkin_fst_granted d uid today hc, rowOf_updateRow_ne _ _ _ h,
      rowOf_ensure_user]

theorem checkin_rowOf_rejected (d : DB) (uid : Nat) (today : String)
    (h : (rowOf d uid).last_checkin = some today) :
    rowOf (checkin d uid today).1 uid = rowOf d uid := by
  rw [checkin_fst_rejected d uid today h, rowOf_ensure_user]

theorem checkin_rowOf_granted (d : DB) (uid : Nat) (today : String)
    (h : ¬(rowOf d uid).last_checkin = some today) :
    rowOf (checkin d uid today).1 uid =
      { rowOf d uid with
        balance := (rowOf d uid).balance + DAILY_REWARD,
        total_checkins := (rowOf d uid).total_checkins + 1,
        last_checkin := some today } := by
  rw [checkin_fst_granted d uid today h, rowOf_updateRow_ensure_self]

theorem profile_rowOf (d : DB) (uid id : Nat) :
    rowOf (profile d uid).1 id = rowOf d id := by
  rw [profile_fst, rowOf_ensure_user]

theorem on_member_join_rowOf_ne (d : DB) (uid : Nat) (b : Bool)
    (mj : Option PyDate) {id : Nat} (h : id ≠ uid) :
    rowOf (on_member_join d uid b mj).1 id = rowOf d id := by
  cases b with
  | true => rfl
  | false =>
    cases hj : truthyStr (rowOf d uid).joined_at with
    | true => rw [on_member_join_fst_truthy d uid mj hj, rowOf_ensure_user]
    | false =>
      rw [on_member_join_fst_set d uid mj hj, rowOf_updateRow_ne _ _ _ h,
        rowOf_ensure_user]

theorem on_member_join_rowOf_truthy (d : DB) (uid : Nat) (b : Bool)
    (mj : Option PyDate) (h : truthyStr (rowOf d uid).joined_at = true) :
    rowOf (on_member_join d uid b mj).1 uid = rowOf d uid := by
  cases b with
  | true => rfl
  | false => rw [on_member_join_fst_truthy d uid mj h, rowOf_ensure_user]

theorem on_member_join_rowOf_set (d : DB) (uid : Nat) (mj : Option PyDate)
    (h : truthyStr (rowOf d uid).joined_at = false) :
    rowOf (on_member_join d uid false mj).1 uid =
      { rowOf d uid with joined_at := some (joined_str mj) } := by
  rw [on_member_join_fst_set d uid mj h, rowOf_updateRow_ensure_self]

-- ### The reachable-state invariant

theorem dbInv_emptyDB : DBInv emptyDB := by
  intro id r h
  simp [emptyDB] at h

theorem dbInv_rowOf {d : DB} (h : DBInv d) (id : Nat) :
    (rowOf d id).joined_at ≠ some "" ∧
    (rowOf d id).balance = (rowOf d id).total_checkins * DAILY_REWARD := by
  unfold rowOf
  cases hr : d id with
  | some r => exact h id r hr
  | none => exact ⟨by simp [defaultRow], by simp [defaultRow]⟩

theorem dbInv_ensure_user {d : DB} (h : DBInv d) (uid : Nat) :
    DBInv (ensure_user d uid) := by
  intro id r hr
  by_cases hid : id = uid
  · subst hid
    rw [ensure_user_apply_self] at hr
    injection hr with hh
    subst hh
    exact dbInv_rowOf h id
  · rw [ensure_user_apply_ne d hid] at hr
    exact h id r hr

theorem dbInv_updateRow_ensure {d : DB} (h : DBInv d) (uid : Nat)
    (f : UserRow → UserRow)
    (hf : (f (rowOf d uid)).joined_at ≠ some "" ∧
          (f (rowOf d uid)).balance
            = (f (rowOf d uid)).total_checkins * DAILY_REWARD) :
    DBInv (updateRow (ensure_user d uid) uid f) := by
  intro id r hr
  by_cases hid : id = uid
  · subst hid
    rw [updateRow_apply_self, ensure_user_apply_self] at hr
    simp only [Option.map_some'] at hr
    injection hr with hh
    subst hh
    exact hf
  · rw [updateRow_apply_ne _ _ _ hid] at hr
    exact dbInv_ensure_user h uid id r hr

theorem dbInv_applyOp {d : DB} (h : DBInv d) (op : Op) :
    DBInv (applyOp d op) := by
  cases op with
  | checkinOp uid today =>
    show DBInv (checkin d uid today).1
    by_cases hc : (rowOf d uid).last_checkin = some today
    · rw [checkin_fst_rejected d uid today hc]
      exact dbInv_ensure_user h uid
    · rw [checkin_fst_granted d uid today hc]
      refine dbInv_updateRow_ensure h uid _ ⟨?_, ?_⟩
      · exact (dbInv_rowOf h uid).1
      · show (rowOf d uid).balance + DAILY_REWARD
            = ((rowOf d uid).total_checkins + 1) * DAILY_REWARD
        rw [(dbInv_rowOf h uid).2, Nat.succ_mul]
  | profileOp uid =>
    show DBInv (profile d uid).1
    rw [profile_fst]
    exact dbInv_ensure_user h uid
  | memberJoinOp uid b mj =>
    show DBInv (on_member_join d uid b mj).1
    cases b with
    | true => exact h
    | false =>
      cases hj : truthyStr (rowOf d uid).joined_at with
      | true =>
        rw [on_member_join_fst_truthy d uid mj hj]
        exact dbInv_ensure_user h uid
      | false =>
        rw [on_member_join_fst_set d uid mj hj]
        refine dbInv_updateRow_ensure h uid _ ⟨?_, (dbInv_rowOf h uid).2⟩
        intro hcon
        injection hcon with hh
        exact joined_str_ne_empty mj hh

theorem dbInv_foldl (ops : List Op) :
    ∀ d : DB, DBInv d → DBInv (List.foldl applyOp d ops) := by
  induction ops with
  | nil => intro d hd; exact hd
  | cons op rest ih =>
    intro d hd
    exact ih (applyOp d op) (dbInv_applyOp hd op)

theorem dbInv_runOps (ops : List Op) : DBInv (runOps ops) :=
  dbInv_foldl ops emptyDB dbInv_emptyDB

-- ### C10

/-- C10: starting from the fresh database, after any sequence of
check-in, profile and member-join events, every user record satisfies
`balance = total_checkins * DAILY_REWARD`: the balance is fully
determined by the attendance count, since the granted check-in is the
only operation changing balance and it adds exactly `DAILY_REWARD` while
incrementing `total_checkins` by one. -/
theorem balance_locked_to_checkins (ops : List Op) (id : Nat) :
    (rowOf (runOps ops) id).balance
      = (rowOf (runOps ops) id).total_checkins * DAILY_REWARD :=
  (dbInv_rowOf (dbInv_runOps ops) id).2

-- ### C7

/-- C7: `balance` and `total_checkins` change only as a paired update in
the granted check-in transition: for every operation and every user id,
either both fields are unchanged (profile, join events, same-day rejected
check-in, and every other user's row), or the operation is a check-in for
that id whose `last_checkin` differed from `today`, and then balance grew
by exactly `DAILY_REWARD` while `total_checkins` grew by exactly one, in
the same update. -/
theorem balance_total_only_paired (d : DB) (op : Op) (id : Nat) :
    ((rowOf (applyOp d op) id).balance = (rowOf d id).balance ∧
     (rowOf (applyOp d op) id).total_checkins
       = (rowOf d id).total_checkins) ∨
    (∃ today, op = Op.checkinOp id today ∧
      (rowOf d id).last_checkin ≠ some today ∧
      (rowOf (applyOp d op) id).balance
        = (rowOf d id).balance + DAILY_REWARD ∧
      (rowOf (applyOp d op) id).total_checkins
        = (rowOf d id).total_checkins + 1) := by
  cases op with
  | checkinOp uid today =>
    simp only [applyOp]
    by_cases hid : id = uid
    · subst hid
      by_cases hc : (rowOf d id).last_checkin = some today
      · left
        rw [checkin_rowOf_rejected d id today hc]
        exact ⟨rfl, rfl⟩
      · right
        refine ⟨today, rfl, hc, ?_, ?_⟩ <;>
          rw [checkin_rowOf_granted d id today hc]
    · left
      rw [checkin_rowOf_ne d uid today hid]
      exact ⟨rfl, rfl⟩
  | profileOp uid =>
    left
    simp only [applyOp]
    rw [profile_rowOf]
    exact ⟨rfl, rfl⟩
  | memberJoinOp uid b mj =>
    left
    simp only [applyOp]
    by_cases hid : id = uid
    · subst hid
      cases hj : truthyStr (rowOf d id).joined_at with
      | true =>
        rw [on_member_join_rowOf_truthy d id b mj hj]
        exact ⟨rfl, rfl⟩
      | false =>
        cases b with
        | true => exact ⟨rfl, rfl⟩
        | false =>
          rw [on_member_join_rowOf_set d id mj hj]
          exact ⟨rfl, rfl⟩
    · rw [on_member_join_rowOf_ne d uid b mj hid]
      exact ⟨rfl, rfl⟩

-- ### C5

/-- C5: once `joined_at` is non-null it is immutable.  In every reachable
database state (any event sequence from the fresh database), if a user's
`joined_at` is `some s`, a further join event for that user leaves it at
`some s`; and from a null `joined_at`, two join events with two observed
dates leave the first date in place (so the recorder writes `joined_at`
only when it is currently unset). -/
theorem joined_at_immutable (ops : List Op) (uid : Nat) (s : String)
    (mj mj2 : Option PyDate)
    (h : (rowOf (runOps ops) uid).joined_at = some s) :
    (rowOf (on_member_join (runOps ops) uid false mj).1 uid).joined_at
      = some s ∧
    ∀ d : DB, (rowOf d uid).joined_at = none →
      (rowOf (on_member_join
          (on_member_join d uid false mj).1 uid false mj2).1 uid).joined_at
        = some (joined_str mj) := by
  constructor
  · have hne : some s ≠ some ("" : String) := by
      rw [← h]
      exact (dbInv_rowOf (dbInv_runOps ops) uid).1
    have hs : s ≠ "" := fun hcon => hne (by rw [hcon])
    have ht : truthyStr (rowOf (runOps ops) uid).joined_at = true := by
      rw [h]
      exact truthyStr_some_of_ne hs
    rw [on_member_join_rowOf_truthy _ _ _ _ ht, h]
  · intro d hd
    have h0 : truthyStr (rowOf d uid).joined_at = false := by rw [hd]; rfl
    have h1 : rowOf (on_member_join d uid false mj).1 uid
        = { rowOf d uid with joined_at := some (joined_str mj) } :=
      on_member_join_rowOf_set d uid mj h0
    have h2 : truthyStr
        (rowOf (on_member_join d uid false mj).1 uid).joined_at = true := by
      rw [h1]
      exact truthyStr_some_of_ne (joined_str_ne_empty mj)
    rw [on_member_join_rowOf_truthy _ _ _ _ h2, h1]

theorem joined_at_immutable_witness :
    (rowOf (on_member_join
        (runOps [Op.memberJoinOp 7 false (some { year := 2024, month := 3, day := 1 })])
        7 false (some { year := 2024, month := 3, day := 5 })).1 7).joined_at
      = some "2024-03-01" ∧
    (rowOf (on_member_join
        (on_member_join emptyDB 7 false
          (some { year := 2024, month := 3, day := 5 })).1
        7 false (some { year := 2024, month := 3, day := 9 })).1 7).joined_at
      = some "2024-03-05" := by
  have h := joined_at_immutable
    [Op.memberJoinOp 7 false (some { year := 2024, month := 3, day := 1 })]
    7 "2024-03-01" (some { year := 2024, month := 3, day := 5 })
    (some { year := 2024, month := 3, day := 9 }) (by decide)
  refine ⟨h.1, ?_⟩
  rw [h.2 emptyDB (by decide)]
  decide

-- ### C6

/-- C6 counterexample: user 42 has never been seen (fresh database), and
its first observation is the check-in command.  The command creates the
record, yet the resulting `joined_at` is null — first observation through
a command does not set `joined_at`, contrary to the claim. -/
theorem command_first_observation_no_joined_at :
    (checkin emptyDB 42 "2024-01-01").1 42
      = some { balance := 100000, total_checkins := 1,
               last_checkin := some "2024-01-01", joined_at := none } := by
  decide

/-- C6 (amended): `joined_at` is set only by the join-event recorder, not
at first observation in general: the check-in and profile commands never
change `joined_at` (in particular a never-seen user first observed via a
command keeps `joined_at` null), and a non-bot join event that finds
`joined_at` null sets it to the observed date. -/
theorem joined_at_only_from_join_events (d : DB) (uid : Nat)
    (today : String) (mj : Option PyDate) :
    (rowOf (checkin d uid today).1 uid).joined_at
      = (rowOf d uid).joined_at ∧
    (rowOf (profile d uid).1 uid).joined_at = (rowOf d uid).joined_at ∧
    ((rowOf d uid).joined_at = none →
      (rowOf (on_member_join d uid false mj).1 uid).joined_at
        = some (joined_str mj)) := by
  refine ⟨?_, ?_, ?_⟩
  · by_cases hc : (rowOf d uid).last_checkin = some today
    · rw [checkin_rowOf_rejected d uid today hc]
    · rw [checkin_rowOf_granted d uid today hc]
  · rw [profile_rowOf]
  · intro hd
    have h0 : truthyStr (rowOf d uid).joined_at = false := by rw [hd]; rfl
    rw [on_member_join_rowOf_set d uid mj h0]

theorem joined_at_only_from_join_events_witness :
    (rowOf (checkin emptyDB 42 "2024-01-01").1 42).joined_at = none ∧
    (rowOf (on_member_join emptyDB 42 false
        (some { year := 2024, month := 3, day := 1 })).1 42).joined_at
      = some "2024-03-01" := by
  have h := joined_at_only_from_join_events emptyDB 42 "2024-01-01"
    (some { year := 2024, month := 3, day := 1 })
  constructor
  · rw [h.1]
    rfl
  · rw [h.2.2 (by rfl)]
    decide
